import Mathlib

/-!
Verification of the wake-loss specification of demo-openoa-app.

The repository contains a Streamlit dashboard (`src/app.py`) and a
regression test for the wake-loss analysis engine
(`src/test/regression/wake_losses.py`).  The engine itself
(`openoa.analysis.wake_losses`) is not shipped under `src/`, so the parts
of it that claims need are modelled from the spec (each such definition is
marked `Modelled from the spec:`); the dashboard and the regression test
are embedded directly from the source.
-/

namespace DemoOpenoaApp

/-! ## Embedding of src/app.py -/

/-- One row of the dashboard dataframe `df` after `load_data` renames the
columns of `wind_turbine_scada.csv` (src/app.py lines 24-49). -/
structure Row where
  power : ℚ
  expected_power : ℚ
  lat : ℚ
  lon : ℚ
deriving DecidableEq

/-- `interval_hours = 10 / 60` (src/app.py line 58): ten-minute sampling. -/
def interval_hours : ℚ := 10 / 60

/-- `AEP = df["power"].sum() * interval_hours / 1000` (src/app.py line 60). -/
def AEP (df : List Row) : ℚ := (df.map Row.power).sum * interval_hours / 1000

/-- `expected_energy = df["expected_power"].sum() * interval_hours / 1000`
(src/app.py line 62). -/
def expected_energy (df : List Row) : ℚ :=
  (df.map Row.expected_power).sum * interval_hours / 1000

/-- `efficiency = (AEP / expected_energy) * 100` (src/app.py line 64). -/
def efficiency (df : List Row) : ℚ := AEP df / expected_energy df * 100

/-- `total_loss = expected_energy - AEP` (src/app.py line 66). -/
def total_loss (df : List Row) : ℚ := expected_energy df - AEP df

/-- The marker loop of the map view, `for i in range(50)`
(src/app.py lines 183-193): the row indices the loop reads with
`df["lat"].iloc[i]` / `df["lon"].iloc[i]`. -/
def markerIndices : List ℕ := List.range 50

/-- The marker loop is well defined on `df` exactly when every index it
reads is in bounds for `df`. -/
def markersInBounds (df : List Row) : Prop :=
  ∀ i ∈ markerIndices, i < df.length

instance (df : List Row) : Decidable (markersInBounds df) := by
  unfold markersInBounds; infer_instance

/-! ## Embedding of src/test/regression/wake_losses.py -/

namespace WakeLossesTest

/-- `expected_results_por` of `check_simulation_results_wake_losses_without_UQ`
(src/test/regression/wake_losses.py line 145): plant-level POR wake loss in
percent followed by the four turbine-level POR wake losses in percent. -/
def expected_results_por : List ℚ :=
  [0.340045, -11.727658, 10.898059, 4.065239, -1.910556]

/-- `expected_results_lt` of `check_simulation_results_wake_losses_without_UQ`
(src/test/regression/wake_losses.py line 146). -/
def expected_results_lt : List ℚ :=
  [0.373332, -9.713340, 10.282598, 2.933038, -2.034775]

/-- `expected_results_por` of `check_simulation_results_wake_losses_with_UQ`
(src/test/regression/wake_losses.py lines 162-173): plant-level POR mean and
standard deviation in percent, then turbine-level means, then turbine-level
standard deviations. -/
def expected_results_por_UQ : List ℚ :=
  [0.466709, 1.519220, -11.560934, 11.021836, 4.167384, -1.795656,
   1.698255, 1.364234, 1.483180, 1.545941]

/-- `expected_results_lt` of `check_simulation_results_wake_losses_with_UQ`
(src/test/regression/wake_losses.py lines 174-185). -/
def expected_results_lt_UQ : List ℚ :=
  [0.644775, 1.372648, -9.436220, 10.614411, 3.111282, -1.732393,
   1.546301, 1.323577, 1.365420, 1.426536]

end WakeLossesTest

/-! ## Spec-modelled wake-loss engine

`openoa.analysis.wake_losses` is code of this repository that is not under
`src/`; only its regression test is.  The definitions below are therefore
modelled from the spec (sections 4.1-4.7, 6 and 7 of spec.md). -/

/-- Modelled from the spec: error taxonomy of section 7 for the missing
engine `openoa.analysis.wake_losses` — fatal configuration errors and fatal
data-sufficiency errors. -/
inductive EngineError where
  | configError : EngineError
  | dataSufficiencyError : EngineError
deriving DecidableEq

/-- Modelled from the spec: the Wake Loss Calculator (section 4.6) of the
missing engine returns the wake-loss fraction `1 - (actual / expected)`. -/
def wake_loss (actual expected : ℚ) : ℚ := 1 - actual / expected

/-- Modelled from the spec: the reporting boundary expresses a stored
wake-loss fraction as a percentage (section 4.6); the regression test does
exactly this with `100 * self.analysis.wake_losses_por`. -/
def reportPercent (x : ℚ) : ℚ := 100 * x

/-- Modelled from the spec: the Energy Aggregator's conversion factor
(section 4.4) is purely interval-length dependent; with the ten-minute
kW-to-MWh convention of src/app.py it is `intervalHours / 1000`. -/
def convFactor (intervalHours : ℚ) : ℚ := intervalHours / 1000

/-- Modelled from the spec: the Energy Aggregator (section 4.4) of the
missing engine converts a power series into energy: sum of power samples
times the interval-length-dependent conversion factor. -/
def energyAgg (powers : List ℚ) (intervalHours : ℚ) : ℚ :=
  powers.sum * convFactor intervalHours

/-- Modelled from the spec: per-turbine energies of a plant (section 4.4),
one energy per turbine power series. -/
def turbine_energies (plant : List (List ℚ)) (intervalHours : ℚ) : List ℚ :=
  plant.map fun p => energyAgg p intervalHours

/-- Modelled from the spec: plant-level energy (section 4.4) is the energy
of the summed plant power, i.e. the aggregation over all turbines. -/
def plant_energy (plant : List (List ℚ)) (intervalHours : ℚ) : ℚ :=
  energyAgg (plant.map List.sum) intervalHours

/-- Modelled from the spec: the Freestream Turbine Selector (section 4.2)
of the missing engine classifies a candidate turbine as freestream when its
relative power deficit versus its sector peers is below a tunable
threshold.  A candidate is an identifier paired with its relative deficit. -/
def selectFreestream (deficitThresh : ℚ) (candidates : List (String × ℚ)) :
    List String :=
  (candidates.filter fun c => decide (c.2 < deficitThresh)).map Prod.fst

/-- Modelled from the spec: one deterministic pass of the engine pipeline
(sections 4.2 and 4.6, failure mode of section 7): if fewer than one
candidate is classified freestream the run fails with a configuration
error; otherwise the wake-loss fraction of the supplied actual and
expected energies is produced. -/
def runWakeAnalysis (deficitThresh : ℚ) (candidates : List (String × ℚ))
    (actual expected : ℚ) : Except EngineError ℚ :=
  if (selectFreestream deficitThresh candidates).length < 1 then
    Except.error EngineError.configError
  else
    Except.ok (wake_loss actual expected)

/-! ### Monte Carlo UQ driver (spec sections 4.7, 5 and 7) -/

/-- Modelled from the spec: a reproducible pseudo-random generator step for
the seeded resampling of section 4.7 (a 64-bit linear congruential step,
standing in for the seeded NumPy generator that `reset_prng` seeds in the
regression test). -/
def prngNext (s : ℕ) : ℕ :=
  (6364136223846793005 * s + 1442695040888963407) % 2 ^ 64

/-- Modelled from the spec: the sub-seed of trial `i`, derived from the
master seed plus the trial index (design note of section 9), so the trial
set is reproducible and order-independent. -/
def trialSeed (seed : ℕ) : ℕ → ℕ
  | 0 => prngNext seed
  | n + 1 => prngNext (trialSeed seed n)

/-- Modelled from the spec: the per-trial resample with replacement of the
POR observation timestamps (section 4.7, item d), driven by the trial
sub-seed `r`.  An observation is an (actual power, expected power) pair. -/
def resample (data : List (ℚ × ℚ)) (r : ℕ) : List (ℚ × ℚ) :=
  (List.range data.length).map fun j =>
    data.getD ((r + j) % max data.length 1) (0, 1)

/-- Modelled from the spec: one UQ trial (section 4.7) runs the full
pipeline on the resampled observations; a trial whose resampled expected
energy is zero has no computable wake-loss metric and fails with a
data-sufficiency error (section 7) instead of yielding an undefined
number. -/
def runTrialE (data : List (ℚ × ℚ)) (r : ℕ) : Except EngineError ℚ :=
  let rs := resample data r
  let expected := (rs.map Prod.snd).sum
  if expected = 0 then Except.error EngineError.dataSufficiencyError
  else Except.ok (wake_loss (rs.map Prod.fst).sum expected)

/-- Modelled from the spec: the deterministic mode (section 4.7) is a
single unperturbed pass of the pipeline; sub-seed 0 makes `resample` the
identity resample. -/
def runDet (data : List (ℚ × ℚ)) : Except EngineError ℚ := runTrialE data 0

/-- Modelled from the spec: the UQ driver folds the trials in order and
aborts the whole run at the first failing trial (section 7: a single
trial's failure aborts the run rather than being skipped). -/
def collectTrials (f : ℕ → Except EngineError ℚ) :
    List ℕ → Except EngineError (List ℚ)
  | [] => Except.ok []
  | r :: rs =>
    match f r with
    | Except.error e => Except.error e
    | Except.ok x =>
      match collectTrials f rs with
      | Except.error e => Except.error e
      | Except.ok xs => Except.ok (x :: xs)

/-- Mean of a list of rationals. -/
def listMean (xs : List ℚ) : ℚ := xs.sum / xs.length

/-- Population variance of a list of rationals. -/
def listVar (xs : List ℚ) : ℚ :=
  ((xs.map fun x => (x - listMean xs) ^ 2).sum) / xs.length

/-- Modelled from the spec: the distribution summary exposed after a UQ
run (section 4.7): mean and variance per metric. -/
structure UQSummary where
  mean : ℚ
  var : ℚ
deriving DecidableEq

/-- Modelled from the spec: the Monte Carlo UQ driver (section 4.7) runs
`num_sim` trials whose random draws are derived from the master seed plus
the trial index, and aggregates the trial results into a mean/variance
summary; any trial failure aborts the whole run. -/
def runUQ (num_sim : ℕ) (data : List (ℚ × ℚ)) (seed : ℕ) :
    Except EngineError UQSummary :=
  match collectTrials (runTrialE data) ((List.range num_sim).map (trialSeed seed)) with
  | Except.error e => Except.error e
  | Except.ok xs => Except.ok ⟨listMean xs, listVar xs⟩

/-! ### Fixture results (spec section 8, scenario properties)

The engine's numeric outputs on the reference fixture cannot be recomputed
here (neither the engine nor the ENGIE dataset is under `src/`), so the
stored fractions are modelled from the spec's scenario statements; the
regression test's expected arrays are embedded from the source above and
the theorems check the two against each other. -/

namespace EngineFixture

/-- Modelled from the spec: scenario of section 8 — the plant-level POR
wake loss of the deterministic fixture run is `0.340045 %`, stored by the
engine as a fraction. -/
def wake_losses_por : ℚ := 0.340045 / 100

/-- Modelled from the spec: scenario of section 8 — the plant-level LT
wake loss of the deterministic fixture run is `0.373332 %`, stored by the
engine as a fraction. -/
def wake_losses_lt : ℚ := 0.373332 / 100

/-- Modelled from the spec: UQ scenario of section 8 — the plant-level POR
wake-loss mean of the UQ fixture run is `0.466709 %`, stored as a
fraction. -/
def wake_losses_por_mean : ℚ := 0.466709 / 100

/-- Modelled from the spec: UQ scenario of section 8 — the plant-level POR
wake-loss standard deviation of the UQ fixture run is `1.519220 %`, stored
as a fraction. -/
def wake_losses_por_std : ℚ := 1.519220 / 100

end EngineFixture

/-! ## Helper lemmas -/

/-- Summing per-turbine energies is summing the summed plant power, scaled
by the common conversion factor. -/
theorem sum_map_mul_const (l : List (List ℚ)) (c : ℚ) :
    (l.map fun p => p.sum * c).sum = (l.map List.sum).sum * c := by
  induction l with
  | nil => simp
  | cons p t ih => simp [ih]; ring

/-- If any trial in the list fails, the fold over trials fails. -/
theorem collectTrials_error_of_mem (f : ℕ → Except EngineError ℚ)
    (l : List ℕ) (r : ℕ) (e : EngineError) (hr : r ∈ l)
    (hf : f r = Except.error e) :
    ∃ e2, collectTrials f l = Except.error e2 := by
  induction l with
  | nil => cases hr
  | cons a t ih =>
    rcases List.mem_cons.mp hr with h | h
    · subst h
      exact ⟨e, by simp [collectTrials, hf]⟩
    · cases hfa : f a with
      | error e3 => exact ⟨e3, by simp [collectTrials, hfa]⟩
      | ok x =>
        rcases ih h with ⟨e2, hc⟩
        exact ⟨e2, by simp [collectTrials, hfa, hc]⟩

/-- If the fold over trials succeeds, every trial in the list succeeded. -/
theorem collectTrials_ok_mem (f : ℕ → Except EngineError ℚ) (l : List ℕ)
    (xs : List ℚ) (h : collectTrials f l = Except.ok xs) :
    ∀ r ∈ l, ∃ x, f r = Except.ok x := by
  induction l generalizing xs with
  | nil => intro r hr; cases hr
  | cons a t ih =>
    intro r hr
    cases hfa : f a with
    | error e => simp [collectTrials, hfa] at h
    | ok x =>
      cases hct : collectTrials f t with
      | error e => simp [collectTrials, hfa, hct] at h
      | ok ys =>
        rcases List.mem_cons.mp hr with h1 | h1
        · exact h1 ▸ ⟨x, hfa⟩
        · exact ih ys hct r h1

/-! ## Claim theorems -/

/-- C1: for the reference fixture run without UQ, the plant-level POR wake
loss equals `0.340045 %` and the plant-level LT wake loss equals
`0.373332 %`, within `1e-6` after scaling to percent: the spec-modelled
stored fractions, reported as percentages, match the leading entries of
the regression test's `expected_results_por` and `expected_results_lt`. -/
theorem C1_fixture_scenario_without_UQ :
    |reportPercent EngineFixture.wake_losses_por -
        WakeLossesTest.expected_results_por.headI| ≤ 1 / 1000000 ∧
    |reportPercent EngineFixture.wake_losses_lt -
        WakeLossesTest.expected_results_lt.headI| ≤ 1 / 1000000 := by
  constructor <;>
    norm_num [reportPercent, EngineFixture.wake_losses_por,
      EngineFixture.wake_losses_lt, WakeLossesTest.expected_results_por,
      WakeLossesTest.expected_results_lt]

/-- C2: for the reference fixture run with UQ, the plant-level POR
wake-loss mean equals `0.466709 %` and the POR standard deviation equals
`1.519220 %`, within `1e-6` after scaling to percent: the spec-modelled
stored fractions, reported as percentages, match the first two entries of
the regression test's UQ `expected_results_por`. -/
theorem C2_fixture_scenario_with_UQ :
    |reportPercent EngineFixture.wake_losses_por_mean -
        WakeLossesTest.expected_results_por_UQ.headI| ≤ 1 / 1000000 ∧
    |reportPercent EngineFixture.wake_losses_por_std -
        WakeLossesTest.expected_results_por_UQ.tail.headI| ≤ 1 / 1000000 := by
  constructor <;>
    norm_num [reportPercent, EngineFixture.wake_losses_por_mean,
      EngineFixture.wake_losses_por_std,
      WakeLossesTest.expected_results_por_UQ]

/-- C3: the Wake Loss Calculator returns the fraction
`1 - (actual / expected)`; the engine's stored result is this bare
fraction and the factor of 100 is applied only at the reporting
boundary. -/
theorem C3_fraction_stored_percent_reported (a e deficitThresh : ℚ)
    (cands : List (String × ℚ)) (he : e ≠ 0)
    (hfs : 1 ≤ (selectFreestream deficitThresh cands).length) :
    wake_loss a e = (e - a) / e ∧
    runWakeAnalysis deficitThresh cands a e = Except.ok (wake_loss a e) ∧
    reportPercent (wake_loss a e) = 100 * (1 - a / e) := by
  refine ⟨?_, ?_, rfl⟩
  · unfold wake_loss
    field_simp
  · unfold runWakeAnalysis
    rw [if_neg]
    omega

/-- Witness for C3 at `a = 1`, `e = 2`, threshold `1`, one candidate with
deficit `0` (classified freestream). -/
theorem C3_fraction_stored_percent_reported_witness :
    wake_loss 1 2 = (2 - 1) / 2 ∧
    runWakeAnalysis 1 [("T1", 0)] 1 2 = Except.ok (wake_loss 1 2) ∧
    reportPercent (wake_loss 1 2) = 100 * (1 - 1 / 2) :=
  C3_fraction_stored_percent_reported 1 2 1 [("T1", 0)] (by norm_num)
    (by decide)

/-- C4: for a fixed configuration and fixed seed, two independent
executions of the same run — UQ or deterministic — produce identical
outputs: the embedded engine is a pure function of its configuration,
observation data and seed. -/
theorem C4_determinism (n : ℕ) (data : List (ℚ × ℚ)) (seed : ℕ)
    (o1 o2 : Except EngineError UQSummary) (d1 d2 : Except EngineError ℚ)
    (h1 : o1 = runUQ n data seed) (h2 : o2 = runUQ n data seed)
    (h3 : d1 = runDet data) (h4 : d2 = runDet data) :
    o1 = o2 ∧ d1 = d2 :=
  ⟨h1.trans h2.symm, h3.trans h4.symm⟩

/-- Witness for C4: two executions of the UQ run and of the deterministic
run on a concrete configuration coincide. -/
theorem C4_determinism_witness :
    runUQ 2 [((1 : ℚ), (2 : ℚ))] 0 = runUQ 2 [((1 : ℚ), (2 : ℚ))] 0 ∧
    runDet [((1 : ℚ), (2 : ℚ))] = runDet [((1 : ℚ), (2 : ℚ))] :=
  C4_determinism 2 [(1, 2)] 0 _ _ _ _ rfl rfl rfl rfl

/-- C5: no metric is reported in place of an error — a UQ run that
succeeds had every one of its trials succeed, and a data-sufficiency
failure inside any single trial aborts the entire run with an error
rather than skipping the trial and aggregating the rest. -/
theorem C5_trial_failure_aborts_run (n : ℕ) (data : List (ℚ × ℚ))
    (seed : ℕ) :
    ((∃ i, i < n ∧ ∃ e, runTrialE data (trialSeed seed i) = Except.error e) →
      ∃ e2, runUQ n data seed = Except.error e2) ∧
    (∀ s, runUQ n data seed = Except.ok s →
      ∀ i, i < n → ∃ x, runTrialE data (trialSeed seed i) = Except.ok x) := by
  constructor
  · rintro ⟨i, hi, e, hf⟩
    have hmem : trialSeed seed i ∈ (List.range n).map (trialSeed seed) :=
      List.mem_map_of_mem _ (List.mem_range.mpr hi)
    rcases collectTrials_error_of_mem (runTrialE data) _ _ _ hmem hf with ⟨e2, hc⟩
    exact ⟨e2, by simp [runUQ, hc]⟩
  · intro s hs i hi
    cases hct : collectTrials (runTrialE data) ((List.range n).map (trialSeed seed)) with
    | error e => simp [runUQ, hct] at hs
    | ok xs =>
      exact collectTrials_ok_mem (runTrialE data) _ xs hct _
        (List.mem_map_of_mem _ (List.mem_range.mpr hi))

/-- Witness for C5: a one-trial run over an observation with zero expected
power aborts with an error, and a one-trial run over sufficient data has
its single trial succeed. -/
theorem C5_trial_failure_aborts_run_witness :
    (∃ e2, runUQ 1 [((1 : ℚ), (0 : ℚ))] 0 = Except.error e2) ∧
    (∃ x, runTrialE [((1 : ℚ), (1 : ℚ))] (trialSeed 0 0) = Except.ok x) :=
  ⟨(C5_trial_failure_aborts_run 1 [(1, 0)] 0).1
      ⟨0, by omega, EngineError.dataSufficiencyError,
        by norm_num [runTrialE, resample, List.range_succ, List.range_zero, Nat.mod_one]⟩,
   (C5_trial_failure_aborts_run 1 [(1, 1)] 0).2 ⟨0, 0⟩
      (by norm_num [runUQ, collectTrials, runTrialE, resample, wake_loss,
        listMean, listVar, List.range_succ, List.range_zero, Nat.mod_one]) 0 (by omega)⟩

/-- C6: wake-loss fractions are not clamped to `[0, 1]`: when actual
exceeds expected energy the stored fraction and its reported percentage
are both negative, and the regression test's recorded turbine-level POR
output indeed contains a preserved negative value. -/
theorem C6_negative_loss_preserved (a e : ℚ) (he : 0 < e) (hae : e < a) :
    wake_loss a e < 0 ∧ reportPercent (wake_loss a e) < 0 ∧
    ∃ x ∈ WakeLossesTest.expected_results_por, x < 0 := by
  have h1 : wake_loss a e < 0 := by
    unfold wake_loss
    have : 1 < a / e := (one_lt_div he).mpr hae
    linarith
  refine ⟨h1, by unfold reportPercent; linarith, ⟨-11.727658, ?_, by norm_num⟩⟩
  simp [WakeLossesTest.expected_results_por]

/-- Witness for C6 at `actual = 2`, `expected = 1`. -/
theorem C6_negative_loss_preserved_witness :
    wake_loss 2 1 < 0 ∧ reportPercent (wake_loss 2 1) < 0 ∧
    ∃ x ∈ WakeLossesTest.expected_results_por, x < 0 :=
  C6_negative_loss_preserved 2 1 (by norm_num) (by norm_num)

/-- C7: energy is the sum of power samples times a conversion factor that
is a function of the interval length alone; the same factor applies to
actual and expected energy, so the factor cancels in their ratio, and the
dashboard's `AEP` and `expected_energy` are exactly this aggregation at
the ten-minute interval. -/
theorem C7_energy_conversion (powers expectedPowers : List ℚ) (ih : ℚ)
    (df : List Row) (hih : ih ≠ 0) :
    energyAgg powers ih = powers.sum * convFactor ih ∧
    energyAgg powers ih / energyAgg expectedPowers ih =
      powers.sum / expectedPowers.sum ∧
    AEP df = energyAgg (df.map Row.power) interval_hours ∧
    expected_energy df = energyAgg (df.map Row.expected_power) interval_hours := by
  have hc : convFactor ih ≠ 0 := by
    unfold convFactor
    exact div_ne_zero hih (by norm_num)
  refine ⟨rfl, ?_, ?_, ?_⟩
  · unfold energyAgg
    rw [mul_div_mul_right _ _ hc]
  · unfold AEP energyAgg convFactor
    ring
  · unfold expected_energy energyAgg convFactor
    ring

/-- Witness for C7 at a one-sample power series. -/
theorem C7_energy_conversion_witness :
    energyAgg [3] 1 = List.sum [3] * convFactor 1 ∧
    energyAgg [3] 1 / energyAgg [2] 1 = List.sum [3] / List.sum [2] ∧
    AEP [] = energyAgg (List.map Row.power []) interval_hours ∧
    expected_energy [] = energyAgg (List.map Row.expected_power []) interval_hours :=
  C7_energy_conversion [3] [2] 1 [] (by norm_num)

/-- C8: the sum over turbines of per-turbine energy equals the plant-level
energy — exactly, in rational arithmetic — for any per-turbine actual and
expected power series. -/
theorem C8_aggregation_consistency (actualPlant expectedPlant : List (List ℚ))
    (ih : ℚ) :
    (turbine_energies actualPlant ih).sum = plant_energy actualPlant ih ∧
    (turbine_energies expectedPlant ih).sum = plant_energy expectedPlant ih := by
  constructor <;>
    · unfold turbine_energies plant_energy energyAgg
      rw [sum_map_mul_const]

/-- C9: when the Freestream Turbine Selector classifies fewer than one
candidate as freestream, the run fails with a configuration error instead
of producing a wake-loss result. -/
theorem C9_empty_freestream_config_error (deficitThresh : ℚ)
    (cands : List (String × ℚ)) (a e : ℚ)
    (h : (selectFreestream deficitThresh cands).length < 1) :
    runWakeAnalysis deficitThresh cands a e =
      Except.error EngineError.configError := by
  unfold runWakeAnalysis
  rw [if_pos h]

/-- Witness for C9: with threshold `0` every candidate deficit `1` is
non-freestream and the run errors. -/
theorem C9_empty_freestream_config_error_witness :
    runWakeAnalysis 0 [("T1", 1)] 5 7 =
      Except.error EngineError.configError :=
  C9_empty_freestream_config_error 0 [("T1", 1)] 5 7 (by decide)

/-- C10: the dashboard's map view indexes rows `0..49` unconditionally, so
marker placement is in bounds exactly when the dataset has at least 50
rows; any dataset with fewer rows is indexed out of bounds. -/
theorem C10_map_marker_bounds (df : List Row) :
    markersInBounds df ↔ 50 ≤ df.length := by
  unfold markersInBounds markerIndices
  constructor
  · intro h
    by_contra hlt
    push_neg at hlt
    have := h df.length (List.mem_range.mpr hlt)
    omega
  · intro h i hi
    have := List.mem_range.mp hi
    omega

end DemoOpenoaApp
